import Mathlib

/-!
Shallow embedding of the voice mesh coordinator (`VoiceRoomManager` in
`src/voice-room-manager.js`) of the nightcord repository.

The coordinator's mutable fields (`inVoice`, `localStream`, `isMuted`,
`username`, `roomname`, the `peers` map and the `remoteStreams` map) become a
`VRMState` record.  JavaScript `Map` objects become insertion-ordered
association lists with JS `Map` semantics (`mapGet`/`mapSet`/`mapDelete`).
Media streams and `WebRTCManager` session objects are identified by numeric
tokens, so that replacing a session is distinguishable from keeping it.

Each method becomes a function from the state (plus the message or arguments
it receives) to an `Outcome`: the successor state, the list of events emitted
on the event bus, the list of messages sent over the WebSocket, and the
exception propagated out of the method (`none` when it returns normally).
External fallible operations (`getUserMedia`, `createOffer`,
`handleOffer`/`createAnswer`, `handleAnswer`, `addIceCandidate`) are awaited
promises of the separate `WebRTCManager`; their success or failure is an
input boolean, as is WebSocket connectivity (`wsManager.isConnected()`).
`console.log` / `console.warn` / `console.error` calls are not modelled.
-/

namespace Nightcord

/-- Lookup in a JS `Map` modelled as an association list (`Map.get`). -/
def mapGet {α : Type} : List (String × α) → String → Option α
  | [], _ => none
  | (k', v) :: rest, k => if k' = k then some v else mapGet rest k

/-- JS `Map.has`. -/
def mapHas {α : Type} (m : List (String × α)) (k : String) : Bool :=
  (mapGet m k).isSome

/-- JS `Map.set`: overwrite in place if the key exists, else append. -/
def mapSet {α : Type} : List (String × α) → String → α → List (String × α)
  | [], k, v => [(k, v)]
  | (k', v') :: rest, k, v =>
      if k' = k then (k, v) :: rest else (k', v') :: mapSet rest k v

/-- JS `Map.delete`. -/
def mapDelete {α : Type} : List (String × α) → String → List (String × α)
  | [], _ => []
  | (k', v) :: rest, k =>
      if k' = k then mapDelete rest k else (k', v) :: mapDelete rest k

/-- Events emitted on the event bus (`this.eventBus.emit`).  The `username`
payload of `voice:joined` / `voice:left` / `voice:muted` is `this.username`
at some call sites, which is `null` before the first join, hence
`Option String`; usernames taken from incoming wire messages are wrapped in
`some`. -/
inductive VEvent where
  | joined (username : Option String) (isLocal : Bool)
  | left (username : Option String) (isLocal : Bool)
  | muted (username : Option String) (isMuted : Bool)
  | verror (message : String)
  | streamAdded (username : String) (stream : Nat)
  | streamRemoved (username : String)
  | connState (username : String) (st : String)
deriving Repr, DecidableEq

/-- Messages sent through the WebSocket manager (`this.wsManager.send`).
`sendSignaling` stamps `from := this.username` and `roomname := this.roomname`
onto signaling payloads, so those fields are `Option String`. -/
inductive OutMsg where
  | voiceState (username roomname : Option String) (inVoice isMuted : Bool)
  | offer (toUser : String) (fromUser roomname : Option String)
  | answer (toUser : String) (fromUser roomname : Option String)
  | iceCandidate (toUser : String) (fromUser roomname : Option String)
deriving Repr, DecidableEq

/-- Exceptions a coordinator method can propagate to its caller. -/
inductive JsErr where
  | invalidArguments
  | mediaDenied
deriving Repr, DecidableEq

/-- Coordinator state: the mutable fields of `VoiceRoomManager`. -/
structure VRMState where
  inVoice : Bool
  localStream : Option Nat
  isMuted : Bool
  username : Option String
  roomname : Option String
  peers : List (String × Nat)
  remoteStreams : List (String × Nat)
deriving Repr, DecidableEq

/-- Result of one coordinator method: successor state, events emitted,
messages sent, and the exception propagated out (`none` = normal return). -/
structure Outcome where
  state : VRMState
  events : List VEvent
  sends : List OutMsg
  thrown : Option JsErr
deriving Repr, DecidableEq

/-- An incoming `voice-state` wire message (the fields `handleVoiceState`
destructures; `muted` is `none` when the field is absent, matching the
`muted !== undefined` check). -/
structure VoiceStateMsg where
  username : String
  inVoice : Bool
  muted : Option Bool
deriving Repr, DecidableEq

/-- The `type` discriminator of a `webrtc-*` signaling message. -/
inductive SigKind where
  | offer
  | answer
  | iceCandidate
  | other (t : String)
deriving Repr, DecidableEq

/-- An incoming signaling wire message.  The wire format carries a `to`
field; `handleSignaling` destructures only `type`, `from` and the payload. -/
structure SigMsg where
  kind : SigKind
  fromUser : String
  toUser : String
deriving Repr, DecidableEq

/-- `broadcastVoiceState`: sends the current voice state when the WebSocket
is connected, otherwise does nothing. -/
def broadcastVoiceState (s : VRMState) (wsConnected : Bool) : List OutMsg :=
  if wsConnected then
    [OutMsg.voiceState s.username s.roomname s.inVoice s.isMuted]
  else []

/-- `sendSignaling`: drops the message when the WebSocket is disconnected. -/
def sendSignal (wsConnected : Bool) (m : OutMsg) : List OutMsg :=
  if wsConnected then [m] else []

/-- `removePeer(username)`: close and delete the session if present; delete
the remote stream if present, emitting `voice:stream-removed` only then. -/
def removePeer (s : VRMState) (username : String) : VRMState × List VEvent :=
  let s1 :=
    if mapHas s.peers username then
      { s with peers := mapDelete s.peers username }
    else s
  match mapGet s1.remoteStreams username with
  | some _ =>
      ({ s1 with remoteStreams := mapDelete s1.remoteStreams username },
       [VEvent.streamRemoved username])
  | none => (s1, [])

/-- `joinVoiceChat(username, roomname)`.  `mediaOk` is whether the awaited
`getUserMedia` promise resolves; `streamId` identifies the stream it yields.
Note the source assigns `this.username` / `this.roomname` before requesting
media, and on an `inVoice` re-entry it only warns and returns. -/
def joinVoiceChat (s : VRMState) (username roomname : String)
    (mediaOk wsConnected : Bool) (streamId : Nat) : Outcome :=
  if s.inVoice then
    ⟨s, [], [], none⟩
  else if username = "" ∨ roomname = "" then
    ⟨s, [], [], some JsErr.invalidArguments⟩
  else
    let s1 := { s with username := some username, roomname := some roomname }
    if mediaOk then
      let s2 := { s1 with localStream := some streamId, inVoice := true }
      ⟨s2, [VEvent.joined s2.username true], broadcastVoiceState s2 wsConnected,
       none⟩
    else
      ⟨s1, [VEvent.verror "Microphone access denied"], [],
       some JsErr.mediaDenied⟩

/-- `leaveVoiceChat()`: no-op unless in voice; otherwise stop the local
stream, close every peer, clear both maps, broadcast, emit `voice:left`. -/
def leaveVoiceChat (s : VRMState) (wsConnected : Bool) : Outcome :=
  if !s.inVoice then
    ⟨s, [], [], none⟩
  else
    let s1 := { s with localStream := none, peers := [], remoteStreams := [],
                       inVoice := false }
    ⟨s1, [VEvent.left s.username true], broadcastVoiceState s1 wsConnected,
     none⟩

/-- `createPeerConnection(remoteUsername)`: guarded by `peers.has`; registers
a fresh session (`sid`), then awaits `createOffer` — on success the offer is
sent, on failure the catch block calls `removePeer`.  The method never
throws. -/
def createPeerConnection (s : VRMState) (remoteUsername : String) (sid : Nat)
    (offerOk wsConnected : Bool) : Outcome :=
  if mapHas s.peers remoteUsername then
    ⟨s, [], [], none⟩
  else
    let s1 := { s with peers := mapSet s.peers remoteUsername sid }
    if offerOk then
      ⟨s1, [],
       sendSignal wsConnected (OutMsg.offer remoteUsername s1.username s1.roomname),
       none⟩
    else
      let r := removePeer s1 remoteUsername
      ⟨r.1, r.2, [], none⟩

/-- `handleVoiceState(data)`: ignore own state; on `inVoice` emit
`voice:joined{local:false}` and, when locally in voice, call
`createPeerConnection`; on `!inVoice` call `removePeer` and emit
`voice:left{local:false}`; afterwards emit `voice:muted` when the `muted`
field is present. -/
def handleVoiceState (s : VRMState) (data : VoiceStateMsg) (sid : Nat)
    (offerOk wsConnected : Bool) : Outcome :=
  if some data.username = s.username then
    ⟨s, [], [], none⟩
  else
    let base : Outcome :=
      if data.inVoice then
        let ev := VEvent.joined (some data.username) false
        if s.inVoice then
          let r := createPeerConnection s data.username sid offerOk wsConnected
          ⟨r.state, ev :: r.events, r.sends, none⟩
        else ⟨s, [ev], [], none⟩
      else
        let r := removePeer s data.username
        ⟨r.1, r.2 ++ [VEvent.left (some data.username) false], [], none⟩
    match data.muted with
    | some m =>
        { base with events := base.events ++ [VEvent.muted (some data.username) m] }
    | none => base

/-- `handleOffer(from, offer)`: register a fresh responder session unless one
exists, then await `manager.handleOffer` and `manager.createAnswer`
(`negotiateOk`); on success send the answer, on failure the catch block calls
`removePeer`.  The method never throws. -/
def handleOffer (s : VRMState) (fromUser : String) (sid : Nat)
    (negotiateOk wsConnected : Bool) : Outcome :=
  let s1 :=
    if mapHas s.peers fromUser then s
    else { s with peers := mapSet s.peers fromUser sid }
  if negotiateOk then
    ⟨s1, [],
     sendSignal wsConnected (OutMsg.answer fromUser s1.username s1.roomname),
     none⟩
  else
    let r := removePeer s1 fromUser
    ⟨r.1, r.2, [], none⟩

/-- `handleAnswer(from, answer)`: no session ⇒ warn and return; otherwise
await `manager.handleAnswer` (`ok`); on failure the catch block calls
`removePeer`.  The method never throws. -/
def handleAnswer (s : VRMState) (fromUser : String) (ok : Bool) : Outcome :=
  match mapGet s.peers fromUser with
  | none => ⟨s, [], [], none⟩
  | some _ =>
      if ok then ⟨s, [], [], none⟩
      else
        let r := removePeer s fromUser
        ⟨r.1, r.2, [], none⟩

/-- `handleIceCandidate(from, candidate)`: no session ⇒ warn and return;
otherwise await `manager.addIceCandidate` (`ok`) — its catch block only logs,
so the state is unchanged whether or not the candidate applies. -/
def handleIceCandidate (s : VRMState) (fromUser : String) (ok : Bool) :
    Outcome :=
  match mapGet s.peers fromUser with
  | none => ⟨s, [], [], none⟩
  | some _ =>
      if ok then ⟨s, [], [], none⟩ else ⟨s, [], [], none⟩

/-- `handleSignaling(data)`: destructures `type`, `from` and the payload —
the wire `to` field is never read.  Messages with `from === this.username`
are dropped; the switch dispatches on the three `webrtc-*` kinds. -/
def handleSignaling (s : VRMState) (m : SigMsg) (sid : Nat)
    (ok wsConnected : Bool) : Outcome :=
  if some m.fromUser = s.username then
    ⟨s, [], [], none⟩
  else
    match m.kind with
    | SigKind.offer => handleOffer s m.fromUser sid ok wsConnected
    | SigKind.answer => handleAnswer s m.fromUser ok
    | SigKind.iceCandidate => handleIceCandidate s m.fromUser ok
    | SigKind.other _ => ⟨s, [], [], none⟩

/-- Modelled from the spec: lexicographic comparison of character lists, the
order underlying the spec's tie-break rule ("the lexicographically smaller
username is the initiator").  The source contains no username comparison; this
definition exists only to state the spec's rule. -/
def lexLt : List Char → List Char → Bool
  | [], [] => false
  | [], _ :: _ => true
  | _ :: _, [] => false
  | a :: as, b :: bs =>
      if a.toNat < b.toNat then true
      else if b.toNat < a.toNat then false
      else lexLt as bs

/-- Modelled from the spec: `strLexLt a b` holds when username `a` is
lexicographically smaller than username `b`. -/
def strLexLt (a b : String) : Bool := lexLt a.data b.data

/-- Coordinator in voice as "bob" with no peers yet. -/
def c1state : VRMState :=
  { inVoice := true, localStream := some 0, isMuted := false,
    username := some "bob", roomname := some "lobby",
    peers := [], remoteStreams := [] }

/-- Coordinator in voice as "dave" with a registered session for "erin". -/
def c2state : VRMState :=
  { inVoice := true, localStream := some 0, isMuted := false,
    username := some "dave", roomname := some "lobby",
    peers := [("erin", 7)], remoteStreams := [] }

/-- Coordinator in voice as "carol" with no peers yet. -/
def c3state : VRMState :=
  { inVoice := true, localStream := some 0, isMuted := false,
    username := some "carol", roomname := some "lobby",
    peers := [], remoteStreams := [] }

/-- Coordinator in voice as "dave" with a session and a stream for "erin". -/
def c4state : VRMState :=
  { inVoice := true, localStream := some 0, isMuted := false,
    username := some "dave", roomname := some "lobby",
    peers := [("erin", 2)], remoteStreams := [("erin", 9)] }

/-- A freshly constructed coordinator: all fields empty. -/
def c5state : VRMState :=
  { inVoice := false, localStream := none, isMuted := false,
    username := none, roomname := none, peers := [], remoteStreams := [] }

/-- Coordinator in voice as "frank" with a registered session for "gina". -/
def c6state : VRMState :=
  { inVoice := true, localStream := some 0, isMuted := false,
    username := some "frank", roomname := some "lobby",
    peers := [("gina", 4)], remoteStreams := [] }

/-! ## Association-list (JS `Map`) lemmas -/

theorem mapGet_delete_self {α : Type} (m : List (String × α)) (k : String) :
    mapGet (mapDelete m k) k = none := by
  induction m with
  | nil => rfl
  | cons p rest ih =>
      obtain ⟨k', v⟩ := p
      by_cases h : k' = k
      · simpa [mapDelete, h] using ih
      · simp [mapDelete, h, mapGet, ih]

theorem mapGet_delete_ne {α : Type} (m : List (String × α)) (k v : String)
    (hv : v ≠ k) : mapGet (mapDelete m k) v = mapGet m v := by
  induction m with
  | nil => rfl
  | cons p rest ih =>
      obtain ⟨k', x⟩ := p
      by_cases h : k' = k
      · subst h
        have : ¬ k' = v := fun e => hv (e.symm)
        simp [mapDelete, mapGet, this, ih]
      · simp [mapDelete, h, mapGet, ih]

theorem mapGet_set_self {α : Type} (m : List (String × α)) (k : String)
    (x : α) : mapGet (mapSet m k x) k = some x := by
  induction m with
  | nil => simp [mapSet, mapGet]
  | cons p rest ih =>
      obtain ⟨k', y⟩ := p
      by_cases h : k' = k
      · simp [mapSet, h, mapGet]
      · simp [mapSet, h, mapGet, ih]

theorem mapGet_set_ne {α : Type} (m : List (String × α)) (k v : String)
    (x : α) (hv : v ≠ k) : mapGet (mapSet m k x) v = mapGet m v := by
  induction m with
  | nil =>
      have : ¬ k = v := fun e => hv (e.symm)
      simp [mapSet, mapGet, this]
  | cons p rest ih =>
      obtain ⟨k', y⟩ := p
      by_cases h : k' = k
      · subst h
        have : ¬ k' = v := fun e => hv (e.symm)
        simp [mapSet, mapGet, this]
      · simp [mapSet, h, mapGet, ih]

/-! ## `removePeer` lemmas -/

theorem removePeer_get_peers_self (s : VRMState) (u : String) :
    mapGet (removePeer s u).1.peers u = none := by
  unfold removePeer
  by_cases h : mapHas s.peers u
  · cases hrs : mapGet s.remoteStreams u <;>
      simp [h, hrs, mapGet_delete_self]
  · have hn : mapGet s.peers u = none := by
      unfold mapHas at h
      cases hg : mapGet s.peers u
      · rfl
      · rw [hg] at h; simp at h
    cases hrs : mapGet s.remoteStreams u <;> simp [h, hrs, hn]

theorem removePeer_get_peers_ne (s : VRMState) (u v : String) (hv : v ≠ u) :
    mapGet (removePeer s u).1.peers v = mapGet s.peers v := by
  unfold removePeer
  by_cases h : mapHas s.peers u <;>
    cases hrs : mapGet s.remoteStreams u <;>
      simp [h, hrs, mapGet_delete_ne _ _ _ hv]

theorem removePeer_get_streams_ne (s : VRMState) (u v : String) (hv : v ≠ u) :
    mapGet (removePeer s u).1.remoteStreams v = mapGet s.remoteStreams v := by
  unfold removePeer
  by_cases h : mapHas s.peers u <;>
    cases hrs : mapGet s.remoteStreams u <;>
      simp [h, hrs, mapGet_delete_ne _ _ _ hv]

theorem removePeer_events_of_stream (s : VRMState) (u : String) (st : Nat)
    (h : mapGet s.remoteStreams u = some st) :
    (removePeer s u).2 = [VEvent.streamRemoved u] := by
  unfold removePeer
  by_cases hp : mapHas s.peers u <;> simp [hp, h]

theorem removePeer_inVoice (s : VRMState) (u : String) :
    (removePeer s u).1.inVoice = s.inVoice := by
  unfold removePeer
  by_cases h : mapHas s.peers u <;>
    cases hrs : mapGet s.remoteStreams u <;> simp [h, hrs]

/-! ## Claims -/

/-- C1, counterexample: the code has no lexicographic tie-break.  The local
coordinator "bob" — the lexicographically larger of {"alice", "bob"} — is in
voice with no session for "alice"; on receiving alice's `inVoice=true`
voice-state it registers a session for "alice" and sends the offer itself,
so the larger participant does take the initiating action, contrary to the
claim. -/
theorem c1_counterexample :
    strLexLt "alice" "bob" = true ∧
    c1state.username = some "bob" ∧
    c1state.inVoice = true ∧
    mapGet
      (handleVoiceState c1state ⟨"alice", true, none⟩ 1 true true).state.peers
      "alice" = some 1 ∧
    (handleVoiceState c1state ⟨"alice", true, none⟩ 1 true true).sends =
      [OutMsg.offer "alice" (some "bob") (some "lobby")] := by
  decide

/-- C1, amended: whenever a coordinator in voice receives a voice-state
message with `inVoice=true` from a different username with no session yet, it
registers the session and sends the offer — regardless of which username is
lexicographically smaller; there is no tie-break, so both sides initiate. -/
theorem c1_initiation_no_tiebreak (s : VRMState) (u : String) (m : Option Bool)
    (sid : Nat) (h1 : s.inVoice = true) (h2 : some u ≠ s.username)
    (h3 : mapHas s.peers u = false) :
    mapGet (handleVoiceState s ⟨u, true, m⟩ sid true true).state.peers u =
      some sid ∧
    OutMsg.offer u s.username s.roomname ∈
      (handleVoiceState s ⟨u, true, m⟩ sid true true).sends := by
  unfold handleVoiceState createPeerConnection
  cases m <;> simp [h1, h2, h3, sendSignal, mapGet_set_self]

/-- C1, witness for the amended theorem at a concrete input. -/
theorem c1_initiation_no_tiebreak_witness :
    c1state.inVoice = true ∧
    some "alice" ≠ c1state.username ∧
    mapHas c1state.peers "alice" = false ∧
    (mapGet
        (handleVoiceState c1state ⟨"alice", true, none⟩ 5 true true).state.peers
        "alice" = some 5 ∧
      OutMsg.offer "alice" c1state.username c1state.roomname ∈
        (handleVoiceState c1state ⟨"alice", true, none⟩ 5 true true).sends) :=
  ⟨rfl, by decide, rfl,
    c1_initiation_no_tiebreak c1state "alice" none 5 rfl (by decide) rfl⟩

/-- C2: when a session `sid` is already registered for remote `u`, a
duplicate creation attempt is rejected: `createPeerConnection` returns with
the whole state, events and sends unchanged; a voice-state message from `u`
leaves `u`'s session as `sid`; and an incoming offer never replaces the
session with a different one — afterwards `u`'s entry is still `sid`, or
gone entirely (negotiation failure removal), never a new session. -/
theorem c2_session_never_replaced (s : VRMState) (u : String) (sid sid' : Nat)
    (m : Option Bool) (offerOk negOk ws : Bool)
    (h : mapGet s.peers u = some sid) :
    createPeerConnection s u sid' offerOk ws = ⟨s, [], [], none⟩ ∧
    mapGet (handleVoiceState s ⟨u, true, m⟩ sid' offerOk ws).state.peers u =
      some sid ∧
    (mapGet (handleOffer s u sid' negOk ws).state.peers u = some sid ∨
      mapGet (handleOffer s u sid' negOk ws).state.peers u = none) := by
  have hhas : mapHas s.peers u = true := by simp [mapHas, h]
  refine ⟨?_, ?_, ?_⟩
  · unfold createPeerConnection
    simp [hhas]
  · unfold handleVoiceState
    by_cases hu : some u = s.username
    · cases m <;> simp [hu, h]
    · cases hvc : s.inVoice <;> cases m <;>
        simp [hu, hvc, h, createPeerConnection, hhas]
  · unfold handleOffer
    cases negOk
    · right
      simp [hhas, removePeer_get_peers_self]
    · left
      simp [hhas, h]

/-- C2, witness at a concrete input. -/
theorem c2_session_never_replaced_witness :
    mapGet c2state.peers "erin" = some 7 ∧
    (createPeerConnection c2state "erin" 8 true true = ⟨c2state, [], [], none⟩ ∧
      mapGet
        (handleVoiceState c2state ⟨"erin", true, none⟩ 8 true true).state.peers
        "erin" = some 7 ∧
      (mapGet (handleOffer c2state "erin" 8 false true).state.peers "erin" =
          some 7 ∨
        mapGet (handleOffer c2state "erin" 8 false true).state.peers "erin" =
          none)) :=
  ⟨rfl, c2_session_never_replaced c2state "erin" 7 8 none true false true rfl⟩

/-- C3, counterexample: `handleSignaling` never reads the `to` field.  Local
coordinator "carol" receives an offer from "alice" addressed to "bob"; the
claim says it must be discarded, but the code registers a session for
"alice" and sends an answer. -/
theorem c3_counterexample :
    (⟨SigKind.offer, "alice", "bob"⟩ : SigMsg).toUser ≠ "carol" ∧
    c3state.username = some "carol" ∧
    mapGet
      (handleSignaling c3state ⟨SigKind.offer, "alice", "bob"⟩ 3 true
        true).state.peers "alice" = some 3 ∧
    (handleSignaling c3state ⟨SigKind.offer, "alice", "bob"⟩ 3 true true).sends
      = [OutMsg.answer "alice" (some "carol") (some "lobby")] := by
  decide

/-- C3, amended: `handleSignaling` discards a message (no state change, no
event, no send, no exception) exactly when its `from` equals the local
username; the `to` field is never inspected, so messages addressed to other
users are processed normally. -/
theorem c3_own_messages_discarded (s : VRMState) (m : SigMsg) (sid : Nat)
    (ok ws : Bool) (h : some m.fromUser = s.username) :
    handleSignaling s m sid ok ws = ⟨s, [], [], none⟩ := by
  unfold handleSignaling
  simp [h]

/-- C3, witness at a concrete input. -/
theorem c3_own_messages_discarded_witness :
    some (⟨SigKind.offer, "carol", "bob"⟩ : SigMsg).fromUser = c3state.username ∧
    handleSignaling c3state ⟨SigKind.offer, "carol", "bob"⟩ 3 true true =
      ⟨c3state, [], [], none⟩ :=
  ⟨rfl, c3_own_messages_discarded c3state ⟨SigKind.offer, "carol", "bob"⟩ 3
    true true rfl⟩

/-- C4, counterexample: calling join while already in voice does NOT fail —
it returns normally (`thrown = none`) having warned on the console, a silent
no-op, contrary to the claim that it errors with `AlreadyInVoice`. -/
theorem c4_counterexample :
    c4state.inVoice = true ∧
    joinVoiceChat c4state "dave" "lobby" true true 5 =
      ⟨c4state, [], [], none⟩ := by
  decide

/-- C4, amended: calling the join operation while already in voice is a
silent no-op, not an error: it returns normally, changes no state, emits no
event and sends nothing, leaving the existing voice session (inVoice flag,
capture and every peer session) untouched. -/
theorem c4_join_while_in_voice_noop (s : VRMState) (u r : String)
    (mediaOk ws : Bool) (st : Nat) (h : s.inVoice = true) :
    joinVoiceChat s u r mediaOk ws st = ⟨s, [], [], none⟩ := by
  unfold joinVoiceChat
  simp [h]

/-- C4, witness at a concrete input. -/
theorem c4_join_while_in_voice_noop_witness :
    c4state.inVoice = true ∧
    joinVoiceChat c4state "henry" "attic" true true 5 =
      ⟨c4state, [], [], none⟩ :=
  ⟨rfl, c4_join_while_in_voice_noop c4state "henry" "attic" true true 5 rfl⟩

/-- C5, counterexample: when media acquisition fails, the join aborts with
`voice:error` and a propagated exception as claimed, but the state is NOT
unchanged: `username` and `roomname` were already assigned before the media
request. -/
theorem c5_counterexample :
    c5state.username = none ∧
    c5state.roomname = none ∧
    (joinVoiceChat c5state "dave" "lobby" false true 5).thrown =
      some JsErr.mediaDenied ∧
    (joinVoiceChat c5state "dave" "lobby" false true 5).state.username =
      some "dave" ∧
    (joinVoiceChat c5state "dave" "lobby" false true 5).state.roomname =
      some "lobby" := by
  decide

/-- C5, amended: when media acquisition fails during join (not in voice,
both arguments nonempty), the join aborts with a `MediaAccessDenied`
exception and a `voice:error` event; `inVoice` stays false, no capture is
acquired and no peer session is registered, but `username` and `roomname`
are set to the requested values — the rest of the state is unchanged. -/
theorem c5_media_denied_aborts (s : VRMState) (u r : String) (ws : Bool)
    (st : Nat) (h1 : s.inVoice = false) (h2 : u ≠ "") (h3 : r ≠ "") :
    joinVoiceChat s u r false ws st =
      ⟨{ s with username := some u, roomname := some r },
        [VEvent.verror "Microphone access denied"], [],
        some JsErr.mediaDenied⟩ := by
  unfold joinVoiceChat
  simp [h1, h2, h3]

/-- C5, witness at a concrete input. -/
theorem c5_media_denied_aborts_witness :
    c5state.inVoice = false ∧ "dave" ≠ "" ∧ "lobby" ≠ "" ∧
    joinVoiceChat c5state "dave" "lobby" false true 5 =
      ⟨{ c5state with username := some "dave", roomname := some "lobby" },
        [VEvent.verror "Microphone access denied"], [],
        some JsErr.mediaDenied⟩ :=
  ⟨rfl, by decide, by decide,
    c5_media_denied_aborts c5state "dave" "lobby" true 5 rfl (by decide)
      (by decide)⟩

/-- C6, counterexample: a failing ICE-candidate application does NOT trigger
`removePeer` — its catch block only logs.  "frank" holds a session for
"gina"; after a failed `addIceCandidate` from "gina" the session is still
registered, contrary to the claim. -/
theorem c6_counterexample :
    mapHas c6state.peers "gina" = true ∧
    handleIceCandidate c6state "gina" false = ⟨c6state, [], [], none⟩ ∧
    mapGet (handleIceCandidate c6state "gina" false).state.peers "gina" =
      some 4 := by
  decide

/-- C6, amended: a failing offer handling, answer handling or offer creation
for peer `u` triggers `removePeer u` (afterwards no session is registered for
`u`), and every such failure is contained: no exception leaves the handler
and the sessions and remote streams of every other peer `v ≠ u` are
unchanged.  A failing ICE-candidate application is likewise contained but
does NOT remove the peer — the whole state is unchanged. -/
theorem c6_failure_containment (s : VRMState) (u v : String) (sid : Nat)
    (ws : Bool) (hv : v ≠ u) :
    (handleOffer s u sid false ws).thrown = none ∧
    mapHas (handleOffer s u sid false ws).state.peers u = false ∧
    mapGet (handleOffer s u sid false ws).state.peers v = mapGet s.peers v ∧
    mapGet (handleOffer s u sid false ws).state.remoteStreams v =
      mapGet s.remoteStreams v ∧
    (handleAnswer s u false).thrown = none ∧
    mapHas (handleAnswer s u false).state.peers u = false ∧
    mapGet (handleAnswer s u false).state.peers v = mapGet s.peers v ∧
    mapGet (handleAnswer s u false).state.remoteStreams v =
      mapGet s.remoteStreams v ∧
    (createPeerConnection s u sid false ws).thrown = none ∧
    (mapHas s.peers u = false →
      mapHas (createPeerConnection s u sid false ws).state.peers u = false) ∧
    mapGet (createPeerConnection s u sid false ws).state.peers v =
      mapGet s.peers v ∧
    handleIceCandidate s u false = ⟨s, [], [], none⟩ := by
  refine ⟨?_, ?_, ?_, ?_, ?_, ?_, ?_, ?_, ?_, ?_, ?_, ?_⟩
  · unfold handleOffer
    by_cases hp : mapHas s.peers u <;> simp [hp]
  · unfold handleOffer
    by_cases hp : mapHas s.peers u <;>
      simp [hp, mapHas, removePeer_get_peers_self]
  · unfold handleOffer
    by_cases hp : mapHas s.peers u <;>
      simp [hp, removePeer_get_peers_ne _ _ _ hv, mapGet_set_ne _ _ _ _ hv]
  · unfold handleOffer
    by_cases hp : mapHas s.peers u <;>
      simp [hp, removePeer_get_streams_ne _ _ _ hv]
  · unfold handleAnswer
    cases hg : mapGet s.peers u <;> simp [hg]
  · unfold handleAnswer
    cases hg : mapGet s.peers u <;>
      simp [hg, mapHas, removePeer_get_peers_self]
  · unfold handleAnswer
    cases hg : mapGet s.peers u <;>
      simp [hg, removePeer_get_peers_ne _ _ _ hv]
  · unfold handleAnswer
    cases hg : mapGet s.peers u <;>
      simp [hg, removePeer_get_streams_ne _ _ _ hv]
  · unfold createPeerConnection
    by_cases hp : mapHas s.peers u <;> simp [hp]
  · intro hp
    unfold createPeerConnection
    simp only [hp]
    simp [mapHas, removePeer_get_peers_self]
  · unfold createPeerConnection
    by_cases hp : mapHas s.peers u <;>
      simp [hp, removePeer_get_peers_ne _ _ _ hv, mapGet_set_ne _ _ _ _ hv]
  · unfold handleIceCandidate
    cases hg : mapGet s.peers u <;> simp [hg]

/-- C6, witness at a concrete input. -/
theorem c6_failure_containment_witness :
    "erin" ≠ "gina" ∧
    ((handleOffer c6state "gina" 11 false true).thrown = none ∧
      mapHas (handleOffer c6state "gina" 11 false true).state.peers "gina" =
        false ∧
      mapGet (handleOffer c6state "gina" 11 false true).state.peers "erin" =
        mapGet c6state.peers "erin" ∧
      mapGet
          (handleOffer c6state "gina" 11 false true).state.remoteStreams
          "erin" = mapGet c6state.remoteStreams "erin" ∧
      (handleAnswer c6state "gina" false).thrown = none ∧
      mapHas (handleAnswer c6state "gina" false).state.peers "gina" = false ∧
      mapGet (handleAnswer c6state "gina" false).state.peers "erin" =
        mapGet c6state.peers "erin" ∧
      mapGet (handleAnswer c6state "gina" false).state.remoteStreams "erin" =
        mapGet c6state.remoteStreams "erin" ∧
      (createPeerConnection c6state "gina" 11 false true).thrown = none ∧
      (mapHas c6state.peers "gina" = false →
        mapHas
          (createPeerConnection c6state "gina" 11 false true).state.peers
          "gina" = false) ∧
      mapGet
          (createPeerConnection c6state "gina" 11 false true).state.peers
          "erin" = mapGet c6state.peers "erin" ∧
      handleIceCandidate c6state "gina" false = ⟨c6state, [], [], none⟩) :=
  ⟨by decide, c6_failure_containment c6state "gina" "erin" 11 true (by decide)⟩

/-- C7: once no session is registered for `u`, an arriving answer or ICE
candidate from `u` is discarded whether or not it would have applied: the
full outcome is the unchanged state with no events, no sends and no
exception. -/
theorem c7_discard_after_removal (s : VRMState) (u : String) (ok : Bool)
    (h : mapGet s.peers u = none) :
    handleAnswer s u ok = ⟨s, [], [], none⟩ ∧
    handleIceCandidate s u ok = ⟨s, [], [], none⟩ := by
  unfold handleAnswer handleIceCandidate
  simp [h]

/-- C7, witness at a concrete input. -/
theorem c7_discard_after_removal_witness :
    mapGet c1state.peers "zoe" = none ∧
    (handleAnswer c1state "zoe" true = ⟨c1state, [], [], none⟩ ∧
      handleIceCandidate c1state "zoe" true = ⟨c1state, [], [], none⟩) :=
  ⟨rfl, c7_discard_after_removal c1state "zoe" true rfl⟩

/-- C8: leaving while in voice performs the full teardown — local stream
released, both maps cleared, `inVoice` false, exactly one state broadcast —
and emits exactly one `voice:left{local:true}`; the immediately following
second call is a complete no-op: same state, no events, no sends, no
exception. -/
theorem c8_leave_idempotent (s : VRMState) (ws ws2 : Bool)
    (h : s.inVoice = true) :
    (leaveVoiceChat s ws).events = [VEvent.left s.username true] ∧
    (leaveVoiceChat s ws).state.inVoice = false ∧
    (leaveVoiceChat s ws).state.localStream = none ∧
    (leaveVoiceChat s ws).state.peers = [] ∧
    (leaveVoiceChat s ws).state.remoteStreams = [] ∧
    (leaveVoiceChat s true).sends =
      [OutMsg.voiceState s.username s.roomname false s.isMuted] ∧
    leaveVoiceChat (leaveVoiceChat s ws).state ws2 =
      ⟨(leaveVoiceChat s ws).state, [], [], none⟩ := by
  unfold leaveVoiceChat broadcastVoiceState
  simp [h]

/-- C8, witness at a concrete input. -/
theorem c8_leave_idempotent_witness :
    c4state.inVoice = true ∧
    ((leaveVoiceChat c4state true).events =
        [VEvent.left c4state.username true] ∧
      (leaveVoiceChat c4state true).state.inVoice = false ∧
      (leaveVoiceChat c4state true).state.localStream = none ∧
      (leaveVoiceChat c4state true).state.peers = [] ∧
      (leaveVoiceChat c4state true).state.remoteStreams = [] ∧
      (leaveVoiceChat c4state true).sends =
        [OutMsg.voiceState c4state.username c4state.roomname false
          c4state.isMuted] ∧
      leaveVoiceChat (leaveVoiceChat c4state true).state true =
        ⟨(leaveVoiceChat c4state true).state, [], [], none⟩) :=
  ⟨rfl, c8_leave_idempotent c4state true true rfl⟩

/-- C9: leaving voice with a remote stream registered for `u` clears the
peer map and the remote-stream map in bulk and emits only
`voice:left{local:true}` — no `voice:stream-removed` — whereas `removePeer`
on the same state does emit `voice:stream-removed` for `u`'s stream. -/
theorem c9_bulk_clear_silent (s : VRMState) (u : String) (st : Nat)
    (ws : Bool) (h1 : s.inVoice = true)
    (h2 : mapGet s.remoteStreams u = some st) :
    (leaveVoiceChat s ws).state.peers = [] ∧
    (leaveVoiceChat s ws).state.remoteStreams = [] ∧
    (leaveVoiceChat s ws).events = [VEvent.left s.username true] ∧
    VEvent.streamRemoved u ∉ (leaveVoiceChat s ws).events ∧
    (removePeer s u).2 = [VEvent.streamRemoved u] := by
  unfold leaveVoiceChat
  simp [h1, removePeer_events_of_stream s u st h2]

/-- C9, witness at a concrete input. -/
theorem c9_bulk_clear_silent_witness :
    c4state.inVoice = true ∧
    mapGet c4state.remoteStreams "erin" = some 9 ∧
    ((leaveVoiceChat c4state false).state.peers = [] ∧
      (leaveVoiceChat c4state false).state.remoteStreams = [] ∧
      (leaveVoiceChat c4state false).events =
        [VEvent.left c4state.username true] ∧
      VEvent.streamRemoved "erin" ∉ (leaveVoiceChat c4state false).events ∧
      (removePeer c4state "erin").2 = [VEvent.streamRemoved "erin"]) :=
  ⟨rfl, rfl, c9_bulk_clear_silent c4state "erin" 9 false rfl rfl⟩

/-- C10: every voice-state message with `inVoice=true` from a username other
than the local one makes `handleVoiceState` emit
`voice:joined{local:false}` first, unconditionally — whatever the local
`inVoice` flag, the peer registry, the offer outcome or the mute field. -/
theorem c10_joined_emitted_unconditionally (s : VRMState) (u : String)
    (m : Option Bool) (sid : Nat) (offerOk ws : Bool)
    (h : some u ≠ s.username) :
    (handleVoiceState s ⟨u, true, m⟩ sid offerOk ws).events.head? =
      some (VEvent.joined (some u) false) := by
  unfold handleVoiceState
  cases hvc : s.inVoice <;> cases m <;> simp [h, hvc]

/-- C10, witness: the remote "erin" already has a registered session, and
the repeated broadcast still produces another `voice:joined`. -/
theorem c10_joined_emitted_unconditionally_witness :
    some "erin" ≠ c2state.username ∧
    mapHas c2state.peers "erin" = true ∧
    (handleVoiceState c2state ⟨"erin", true, some true⟩ 8 true
        true).events.head? = some (VEvent.joined (some "erin") false) :=
  ⟨by decide, rfl,
    c10_joined_emitted_unconditionally c2state "erin" (some true) 8 true true
      (by decide)⟩

end Nightcord
